import Mathlib

/-!
# Verification of the drone-exec build pipeline engine

A shallow embedding of `build/pipeline.go` from the drone-exec repository.

Modelling conventions:
* Goroutines that only deliver a value on a channel are modelled by the
  delivered value appearing as an emitted `Signal` event in the function's
  result; asynchronous delivery is represented by the event being produced
  for a later consumer rather than handed to the caller synchronously.
* The `pipe`, `next` and `done` channels therefore do not appear as state:
  what the code would send on them is returned as data (`Line` records and
  `Signal` events).  Channel closing at teardown is recorded in boolean
  fields of `TeardownOut`.
* The container runtime (`Engine` interface in Go) is a record of pure
  functions; an arbitrary Go `error` value coming back from the runtime is
  an arbitrary `BuildErr` value, so that "returned verbatim" is literal.
* Wall-clock time inside the log-forwarding goroutine is modelled by each
  scanned line carrying its arrival time, in milliseconds, measured from the
  reference instant the goroutine captures when it begins (`now` in the Go
  code, the step's start for observational purposes); the Go conversion
  `int64(time.Since(now).Seconds())` truncates, which for a non-negative
  duration is division by 1000 on the milliseconds.
* The hand-linked `element` chain with its `head`/`tail` pointers is
  represented by the list suffix hanging off each pointer: `head` is the
  suffix of the chain starting at the current node, `tail` the suffix
  starting at the last node.  Two pointers into one chain are equal exactly
  when the suffixes are the same list, since distinct positions give
  suffixes of distinct lengths.
-/

namespace Build

/-- The step specification (`yaml.Container` fields used by the pipeline):
logical name, image reference, command, environment and the detached flag. -/
structure Container where
  name : String
  image : String
  command : List String
  environment : List String
  detached : Bool
deriving Repr, DecidableEq, Inhabited

/-- Errors of the pipeline layer: `OomError{Name}`, `ExitError{Name, Code}`,
the `ErrTerm` sentinel delivered by `Stop`, and opaque runtime-capability
errors (arbitrary Go `error` values surfaced by the engine). -/
inductive BuildErr where
  | oomError (proc : String)
  | exitError (proc : String) (code : Int)
  | errTerm
  | engineFailure (msg : String)
deriving Repr, DecidableEq

/-- The terminal state reported by `ContainerWait`. -/
structure ContainerState where
  exitCode : Int
  oomKilled : Bool
deriving Repr, DecidableEq, Inhabited

/-- One line scanned from the container's log stream, with its arrival time
in milliseconds since the forwarding goroutine's reference instant. -/
structure LogChunk where
  millis : Nat
  text : String
deriving Repr, DecidableEq, Inhabited

/-- The log record (`Line` in the Go code): step name, truncated elapsed
seconds, zero-based sequence number, raw text. -/
structure Line where
  proc : String
  time : Int
  pos : Nat
  out : String
deriving Repr, DecidableEq, Inhabited

/-- The container-runtime capability (`Engine` interface): start a container,
open its log stream (the stream is the list of scanned lines), wait for its
terminal state, remove it. -/
structure Engine where
  containerStart : Container → Except BuildErr String
  containerLogs : String → Except BuildErr (List LogChunk)
  containerWait : String → Except BuildErr ContainerState
  containerRemove : String → Except BuildErr Unit

/-- A call made to the runtime capability, recorded for instrumentation. -/
inductive Call where
  | start (c : Container)
  | logs (id : String)
  | wait (id : String)
  | remove (id : String)
deriving Repr, DecidableEq

/-- A value delivered on one of the two signalling channels: `next e` is a
delivery on the advance channel, `done e` on the terminal channel. -/
inductive Signal where
  | next (e : Option BuildErr)
  | done (e : Option BuildErr)
deriving Repr, DecidableEq

/-- The scanner loop of the forwarding goroutine: for each scanned line emit
a `Line` record tagged with the step name, the truncated elapsed seconds and
the running counter `num` (which starts at 0 and increments per line). -/
def emitLines (proc : String) : List LogChunk → Nat → List Line
  | [], _ => []
  | chunk :: rest, num =>
      { proc := proc
        time := Int.ofNat (chunk.millis / 1000)
        pos := num
        out := chunk.text } :: emitLines proc rest (num + 1)

/-- The forwarding goroutine launched by `exec`: open the log stream for
container `id`; on failure return silently with no records; otherwise scan
every line, emitting records with sequence numbers from 0. -/
def forwardLogs (eng : Engine) (proc : String) (id : String) : List Line :=
  match eng.containerLogs id with
  | Except.error _ => []
  | Except.ok chunks => emitLines proc chunks 0

/-- The outcome of one per-step execution (`Pipeline.exec` in Go):
`result` is the returned error (`none` = nil), `started` the container id
appended to `p.containers` (if the start succeeded), `logs` the records the
forwarding goroutine sends on the pipe, and `calls` the runtime calls made. -/
structure ExecOut where
  result : Option BuildErr
  started : Option String
  logs : List Line
  calls : List Call
deriving Repr, DecidableEq

/-- Per-step execution, `func (p *Pipeline) exec(c *yaml.Container) error`:
start the container (a start error is returned at once, nothing recorded,
no forwarding launched); record the id; launch log forwarding; if the step
is detached return nil immediately; otherwise wait for the terminal state
and classify it (runtime wait errors verbatim, OOM first, then non-zero
exit, else success). -/
def Pipeline.exec (eng : Engine) (c : Container) : ExecOut :=
  match eng.containerStart c with
  | Except.error err =>
      { result := some err, started := none, logs := [], calls := [Call.start c] }
  | Except.ok name =>
      let logged := forwardLogs eng c.name name
      let calls0 := [Call.start c, Call.logs name]
      if c.detached then
        { result := none, started := some name, logs := logged, calls := calls0 }
      else
        match eng.containerWait name with
        | Except.error err =>
            { result := some err, started := some name, logs := logged
              calls := calls0 ++ [Call.wait name] }
        | Except.ok state =>
            { result :=
                if state.oomKilled then some (BuildErr.oomError c.name)
                else if state.exitCode ≠ 0 then
                  some (BuildErr.exitError c.name state.exitCode)
                else none
              started := some name, logs := logged
              calls := calls0 ++ [Call.wait name] }

/-- The pipeline state: the node chain is represented by its suffixes, with
`head` the suffix at the current node and `tail` the suffix at the last
node; `err` is the stored error read by `Err()`; `containers` the
append-only list of started container identifiers.  The three channels are
modelled as emitted events, not state. -/
structure Pipeline where
  head : List Container
  tail : List Container
  err : Option BuildErr
  containers : List String
deriving Repr, DecidableEq

/-- `Head()` returns the container at the head node. -/
def Pipeline.Head (p : Pipeline) : Container := p.head.headD default

/-- `Tail()` returns the container at the tail node. -/
def Pipeline.Tail (p : Pipeline) : Container := p.tail.headD default

/-- `Err()` returns the stored error of the pipeline. -/
def Pipeline.Err (p : Pipeline) : Option BuildErr := p.err

/-- The advance transition `func (p *Pipeline) step()`: if the head pointer
equals the tail pointer, deliver nil on the done channel (head not moved);
otherwise move head to its successor and deliver nil on the next channel.
Both deliveries happen inside a fresh goroutine in the Go code, modelled
here by the `Signal` being emitted as an event. -/
def Pipeline.step (p : Pipeline) : Pipeline × Signal :=
  if p.head = p.tail then (p, Signal.done none)
  else ({ p with head := p.head.tail }, Signal.next none)

/-- `func (p *Pipeline) Exec()`: asynchronously run `exec` on the head
container, store its error in `p.err` only when non-nil, append any started
container id, then run the advance transition `step`. -/
def Pipeline.Exec (eng : Engine) (p : Pipeline) : Pipeline × Signal × ExecOut :=
  let out := Pipeline.exec eng (Pipeline.Head p)
  let p1 : Pipeline :=
    { p with
      containers := p.containers ++ out.started.toList
      err :=
        match out.result with
        | some e => some e
        | none => p.err }
  (p1.step.1, p1.step.2, out)

/-- `func (p *Pipeline) Skip()`: bypass the head step and run the advance
transition directly. -/
def Pipeline.Skip (p : Pipeline) : Pipeline × Signal := p.step

/-- `func (p *Pipeline) Stop()`: asynchronously deliver the `ErrTerm`
sentinel on the done channel.  The pipeline state is untouched and no
runtime call is made (the empty `Call` list). -/
def Pipeline.Stop (p : Pipeline) : Pipeline × Signal × List Call :=
  (p, Signal.done (some BuildErr.errTerm), [])

/-- The teardown loop body: call `ContainerRemove` on each recorded id in
order, pairing each id with the (discarded) result of its removal. -/
def teardownRemovals (eng : Engine) : List String → List (String × Except BuildErr Unit)
  | [] => []
  | id :: rest => (id, eng.containerRemove id) :: teardownRemovals eng rest

/-- What `Teardown` does: the removal calls it performs, and which channels
it closes. -/
structure TeardownOut where
  removeCalls : List (String × Except BuildErr Unit)
  nextClosed : Bool
  doneClosed : Bool
  pipeClosed : Bool
deriving Repr

/-- `func (p *Pipeline) Teardown()`: remove every recorded container id
(results discarded), then close the next and done channels; the pipe
channel is deliberately left open (the `close(p.pipe)` is commented out in
the source). -/
def Pipeline.Teardown (eng : Engine) (p : Pipeline) : TeardownOut :=
  { removeCalls := teardownRemovals eng p.containers
    nextClosed := true
    doneClosed := true
    pipeClosed := false }

/-- The external driver loop: call `Exec`, await the signal, loop on a
`next` delivery, stop on a `done` delivery; `fuel` bounds the iterations. -/
def runAll (eng : Engine) : Nat → Pipeline → Pipeline
  | 0, p => p
  | Nat.succ fuel, p =>
      match Pipeline.Exec eng p with
      | (p1, Signal.done _, _) => p1
      | (p1, Signal.next _, _) => runAll eng fuel p1

/-- The identifiers returned by the successful start calls for the given
steps, in order. -/
def startedIds (eng : Engine) (cs : List Container) : List String :=
  cs.filterMap (fun c => (eng.containerStart c).toOption)

/-! ### Concrete fixtures used to evaluate the development on closed inputs -/

/-- A plain blocking build step. -/
def stepA : Container :=
  { name := "a", image := "golang", command := ["go", "build"]
    environment := ["CI=drone"], detached := false }

/-- A second blocking build step. -/
def stepB : Container :=
  { name := "b", image := "golang", command := ["go", "test"]
    environment := [], detached := false }

/-- A detached (sidecar) step. -/
def sidecar : Container :=
  { name := "svc", image := "redis", command := [], environment := []
    detached := true }

/-- A clean terminal state: exit code 0, not OOM-killed. -/
def okState : ContainerState := { exitCode := 0, oomKilled := false }

/-- Three log lines arriving at 0.5s, 1.5s and 2.7s. -/
def sampleChunks : List LogChunk :=
  [{ millis := 500, text := "first" }, { millis := 1500, text := "second" },
   { millis := 2700, text := "third" }]

/-- An engine on which every operation succeeds. -/
def engHappy : Engine :=
  { containerStart := fun c => Except.ok (String.append "id-" c.name)
    containerLogs := fun _ => Except.ok sampleChunks
    containerWait := fun _ => Except.ok okState
    containerRemove := fun _ => Except.ok () }

/-- Like `engHappy`, but the container of step "a" exits with code 1. -/
def engAFails : Engine :=
  { engHappy with
    containerWait := fun id =>
      if id = "id-a" then Except.ok { exitCode := 1, oomKilled := false }
      else Except.ok okState }

/-- Like `engHappy`, but every wait reports an OOM kill (with the non-zero
exit code such a container also carries). -/
def engOom : Engine :=
  { engHappy with
    containerWait := fun _ => Except.ok { exitCode := 137, oomKilled := true } }

/-- Like `engHappy`, but the wait call itself fails. -/
def engWaitErr : Engine :=
  { engHappy with
    containerWait := fun _ => Except.error (BuildErr.engineFailure "wait: connection lost") }

/-- Like `engHappy`, but every start call fails. -/
def engStartFail : Engine :=
  { engHappy with
    containerStart := fun _ => Except.error (BuildErr.engineFailure "start: no such image") }

/-- Like `engHappy`, but opening the log stream fails. -/
def engLogsFail : Engine :=
  { engHappy with
    containerLogs := fun _ => Except.error (BuildErr.engineFailure "logs: no stream") }

/-- Like `engHappy`, but the log stream closes immediately (no lines). -/
def engLogsEmpty : Engine :=
  { engHappy with containerLogs := fun _ => Except.ok [] }

/-- Like `engHappy` except for the wait call, which reports exit code 9:
differs from `engHappy` only in the container's eventual terminal state. -/
def engWaitAlt : Engine :=
  { engHappy with
    containerWait := fun _ => Except.ok { exitCode := 9, oomKilled := false } }

/-- A freshly constructed two-step pipeline a;b: head at the first node,
tail at the last. -/
def pipeAB : Pipeline :=
  { head := [stepA, stepB], tail := [stepB], err := none, containers := [] }

/-- The pipeline a;b with an earlier failure already stored in `err`. -/
def pipeABErr : Pipeline :=
  { head := [stepA, stepB], tail := [stepB]
    err := some (BuildErr.exitError "z" 2), containers := [] }

/-! ### Helper lemmas -/

/-- `exec` records exactly the id of a successful start. -/
theorem exec_started (eng : Engine) (c : Container) :
    (Pipeline.exec eng c).started = (eng.containerStart c).toOption := by
  unfold Pipeline.exec
  cases h : eng.containerStart c with
  | error e => simp [Except.toOption]
  | ok name =>
    cases hd : c.detached with
    | true => simp [hd, Except.toOption]
    | false =>
      cases hw : eng.containerWait name with
      | error e => simp [hd, hw, Except.toOption]
      | ok st => simp [hd, hw, Except.toOption]

/-- A failed start returns the error at once: nothing recorded, no log
forwarding launched, no wait. -/
theorem exec_start_error (eng : Engine) (c : Container) (e : BuildErr)
    (h : eng.containerStart c = Except.error e) :
    Pipeline.exec eng c =
      { result := some e, started := none, logs := [], calls := [Call.start c] } := by
  unfold Pipeline.exec
  rw [h]

/-- A detached step with a successful start resolves to success at once:
no wait call appears among the runtime calls. -/
theorem exec_detached (eng : Engine) (c : Container) (name : String)
    (h : eng.containerStart c = Except.ok name) (hd : c.detached = true) :
    Pipeline.exec eng c =
      { result := none, started := some name
        logs := forwardLogs eng c.name name
        calls := [Call.start c, Call.logs name] } := by
  unfold Pipeline.exec
  rw [h]
  simp [hd]

/-- A non-detached step whose wait call fails returns that error verbatim. -/
theorem exec_wait_error (eng : Engine) (c : Container) (name : String) (e : BuildErr)
    (h : eng.containerStart c = Except.ok name) (hd : c.detached = false)
    (hw : eng.containerWait name = Except.error e) :
    Pipeline.exec eng c =
      { result := some e, started := some name
        logs := forwardLogs eng c.name name
        calls := [Call.start c, Call.logs name, Call.wait name] } := by
  unfold Pipeline.exec
  rw [h]
  simp [hd, hw]

/-- A non-detached step whose wait call reports a terminal state is
classified: OOM first, then non-zero exit, else success. -/
theorem exec_wait_ok (eng : Engine) (c : Container) (name : String)
    (st : ContainerState)
    (h : eng.containerStart c = Except.ok name) (hd : c.detached = false)
    (hw : eng.containerWait name = Except.ok st) :
    Pipeline.exec eng c =
      { result :=
          if st.oomKilled then some (BuildErr.oomError c.name)
          else if st.exitCode ≠ 0 then some (BuildErr.exitError c.name st.exitCode)
          else none
        started := some name
        logs := forwardLogs eng c.name name
        calls := [Call.start c, Call.logs name, Call.wait name] } := by
  unfold Pipeline.exec
  rw [h]
  simp [hd, hw]

/-- After a successful start the records sent on the pipe are exactly those
of the forwarding goroutine. -/
theorem exec_logs_eq (eng : Engine) (c : Container) (name : String)
    (h : eng.containerStart c = Except.ok name) :
    (Pipeline.exec eng c).logs = forwardLogs eng c.name name := by
  unfold Pipeline.exec
  rw [h]
  cases hd : c.detached with
  | true => simp [hd]
  | false =>
    cases hw : eng.containerWait name with
    | error e => simp [hd, hw]
    | ok st => simp [hd, hw]

/-- The scanner loop emits one record per scanned line. -/
theorem emitLines_length (proc : String) (chunks : List LogChunk) (num : Nat) :
    (emitLines proc chunks num).length = chunks.length := by
  induction chunks generalizing num with
  | nil => rfl
  | cons c rest ih => simp [emitLines, ih]

/-- The k-th record of the scanner loop started at counter `num`: step name,
truncated seconds of the k-th line's arrival, counter `num + k`, raw text. -/
theorem emitLines_get (proc : String) (chunks : List LogChunk) (num k : Nat)
    (hk : k < chunks.length) :
    (emitLines proc chunks num)[k]? =
      some { proc := proc, time := Int.ofNat (chunks[k].millis / 1000)
             pos := num + k, out := chunks[k].text } := by
  induction chunks generalizing num k with
  | nil => cases hk
  | cons c rest ih =>
    cases k with
    | zero => simp [emitLines]
    | succ k =>
      have hk2 : k < rest.length := by
        simpa using hk
      rw [emitLines]
      simp only [List.getElem?_cons_succ, List.getElem_cons_succ]
      rw [ih (num + 1) k hk2]
      have harith : num + 1 + k = num + (k + 1) := by omega
      rw [harith]

/-- Successful starts contribute their id to `startedIds`, in order. -/
theorem startedIds_cons (eng : Engine) (c : Container) (l : List Container) :
    startedIds eng (c :: l) =
      (eng.containerStart c).toOption.toList ++ startedIds eng l := by
  unfold startedIds
  cases h : (eng.containerStart c).toOption with
  | none => simp [List.filterMap_cons, h]
  | some id => simp [List.filterMap_cons, h]

/-- The teardown loop calls remove on every recorded id, in order,
whatever the removal results are. -/
theorem teardownRemovals_fst (eng : Engine) (ids : List String) :
    (teardownRemovals eng ids).map Prod.fst = ids := by
  induction ids with
  | nil => rfl
  | cons id rest ih => simp [teardownRemovals, ih]

/-- `Exec` at the tail node: the step runs, its id and error are recorded,
and the advance transition delivers nil on the done channel without moving
the head. -/
theorem Exec_at_tail (eng : Engine) (p : Pipeline) (h : p.head = p.tail) :
    Pipeline.Exec eng p =
      ({ p with
          containers := p.containers ++ (Pipeline.exec eng (Pipeline.Head p)).started.toList
          err :=
            match (Pipeline.exec eng (Pipeline.Head p)).result with
            | some e => some e
            | none => p.err },
        Signal.done none, Pipeline.exec eng (Pipeline.Head p)) := by
  unfold Pipeline.Exec Pipeline.step
  simp [h]

/-- `Exec` at a non-tail node: the step runs, its id and error are recorded,
the head moves to its successor, and nil is delivered on the next channel. -/
theorem Exec_not_tail (eng : Engine) (p : Pipeline) (h : p.head ≠ p.tail) :
    Pipeline.Exec eng p =
      ({ p with
          head := p.head.tail
          containers := p.containers ++ (Pipeline.exec eng (Pipeline.Head p)).started.toList
          err :=
            match (Pipeline.exec eng (Pipeline.Head p)).result with
            | some e => some e
            | none => p.err },
        Signal.next none, Pipeline.exec eng (Pipeline.Head p)) := by
  unfold Pipeline.Exec Pipeline.step
  simp [h]

/-- `startedIds` of no steps is empty. -/
theorem startedIds_nil (eng : Engine) : startedIds eng [] = [] := rfl

/-- Driving the whole chain: starting anywhere in the chain with enough
fuel, the driver loop appends to the started-container list exactly the
identifiers of the successful start calls of the remaining steps, in
order. -/
theorem runAll_containers (eng : Engine) (pre : List Container) :
    ∀ (t : Container) (p : Pipeline) (fuel : Nat),
      p.head = pre ++ [t] → p.tail = [t] → pre.length < fuel →
      (runAll eng fuel p).containers =
        p.containers ++ startedIds eng (pre ++ [t]) := by
  induction pre with
  | nil =>
    intro t p fuel hh ht hf
    cases fuel with
    | zero => exact absurd hf (Nat.not_lt_zero _)
    | succ fuel =>
      have htail : p.head = p.tail := by rw [hh, ht]; rfl
      rw [runAll, Exec_at_tail eng p htail]
      simp [exec_started, Pipeline.Head, hh, startedIds_cons, startedIds_nil]
  | cons c pre2 ih =>
    intro t p fuel hh ht hf
    cases fuel with
    | zero => exact absurd hf (Nat.not_lt_zero _)
    | succ fuel =>
      have hne : p.head ≠ p.tail := by
        rw [hh, ht]
        intro hcontra
        simp at hcontra
      have hf2 : pre2.length < fuel := by
        simp at hf
        omega
      have hmain := ih t
        ({ p with
            head := p.head.tail
            containers :=
              p.containers ++ (Pipeline.exec eng (Pipeline.Head p)).started.toList
            err :=
              match (Pipeline.exec eng (Pipeline.Head p)).result with
              | some e => some e
              | none => p.err })
        fuel (by show (p.head.tail : List Container) = pre2 ++ [t]; rw [hh]; simp)
        (by show p.tail = [t]; exact ht) hf2
      rw [runAll, Exec_not_tail eng p hne]
      simp only [hmain]
      simp [exec_started, startedIds_cons, Pipeline.Head, hh, List.append_assoc]

/-! ### Claim theorems -/

/-- Claim C1, counterexample: on the two-step pipeline a;b with an engine
on which step a's container exits with code 1, `Exec` resolves with the
classified exit failure, yet the delivered signal is `next nil` — not a
terminal signal carrying the failure — and the head has advanced to step
b.  The failure is only recorded in the stored error field. -/
theorem stepFailure_halt_counterexample :
    (Pipeline.Exec engAFails pipeAB).2.2.result = some (BuildErr.exitError "a" 1) ∧
    (Pipeline.Exec engAFails pipeAB).2.1 = Signal.next none ∧
    (Pipeline.Exec engAFails pipeAB).1.head = [stepB] ∧
    (Pipeline.Exec engAFails pipeAB).1.err = some (BuildErr.exitError "a" 1) := by
  refine ⟨?_, ?_, ?_, ?_⟩ <;> rfl

/-- Claim C1, amended: when a step's execution resolves with a failure,
the failure is recorded in the stored pipeline error (read back by `Err`),
but the engine still performs the ordinary advance transition: at the tail
node the terminal signal delivers a null error, and at a non-tail node the
head advances to its successor and the advance signal delivers a null
error.  The terminal signal never carries the classified failure; halting
after a failure is left to the external driver. -/
theorem stepFailure_recorded_then_advance (eng : Engine) (p : Pipeline)
    (e : BuildErr)
    (hfail : (Pipeline.exec eng (Pipeline.Head p)).result = some e) :
    Pipeline.Err (Pipeline.Exec eng p).1 = some e ∧
    (p.head = p.tail →
      (Pipeline.Exec eng p).2.1 = Signal.done none ∧
      (Pipeline.Exec eng p).1.head = p.head) ∧
    (p.head ≠ p.tail →
      (Pipeline.Exec eng p).2.1 = Signal.next none ∧
      (Pipeline.Exec eng p).1.head = p.head.tail) := by
  by_cases h : p.head = p.tail
  · rw [Exec_at_tail eng p h]
    refine ⟨?_, ?_, ?_⟩ <;> simp [Pipeline.Err, hfail, h]
  · rw [Exec_not_tail eng p h]
    refine ⟨?_, ?_, ?_⟩ <;> simp [Pipeline.Err, hfail, h]

/-- Claim C1, witness for the amended statement at a concrete input. -/
theorem stepFailure_recorded_then_advance_witness :
    Pipeline.Err (Pipeline.Exec engAFails pipeAB).1 =
      some (BuildErr.exitError "a" 1) ∧
    (Pipeline.Exec engAFails pipeAB).2.1 = Signal.next none := by
  have h := stepFailure_recorded_then_advance engAFails pipeAB
    (BuildErr.exitError "a" 1) (by decide)
  exact ⟨h.1, (h.2.2 (by decide)).1⟩

/-- Claim C2: after a successful start whose log stream opens with the
scanned lines `chunks`, the forwarding task emits exactly one record per
line; the k-th record carries the step's name, the integer-truncated
elapsed seconds of that line's arrival, and the zero-based sequence number
k (zero for the first line, increasing by one per line). -/
theorem log_records_per_line (eng : Engine) (c : Container) (id : String)
    (chunks : List LogChunk)
    (hstart : eng.containerStart c = Except.ok id)
    (hlogs : eng.containerLogs id = Except.ok chunks) :
    (Pipeline.exec eng c).logs.length = chunks.length ∧
    ∀ k (hk : k < chunks.length),
      (Pipeline.exec eng c).logs[k]? =
        some { proc := c.name, time := Int.ofNat (chunks[k].millis / 1000)
               pos := k, out := chunks[k].text } := by
  have hl : (Pipeline.exec eng c).logs = emitLines c.name chunks 0 := by
    rw [exec_logs_eq eng c id hstart]
    unfold forwardLogs
    rw [hlogs]
  constructor
  · rw [hl, emitLines_length]
  · intro k hk
    rw [hl]
    simpa using emitLines_get c.name chunks 0 k hk

/-- Claim C2, witness: the three sample lines of `engHappy` give three
records; the second (arrived at 1.5s) is tagged time 1, position 1. -/
theorem log_records_per_line_witness :
    (Pipeline.exec engHappy stepA).logs.length = 3 ∧
    (Pipeline.exec engHappy stepA).logs[1]? =
      some { proc := "a", time := 1, pos := 1, out := "second" } := by
  have h := log_records_per_line engHappy stepA "id-a" sampleChunks rfl rfl
  constructor
  · rw [h.1]
    decide
  · rw [h.2 1 (by decide)]
    decide

/-- Claim C3: the advance transition: when the head node equals the tail
node, a null error is delivered on the terminal signal and the pipeline
state (in particular the head) is unchanged; otherwise the head moves to
its successor node and a null error is delivered on the advance signal.
In the Go code both deliveries happen inside a fresh goroutine, modelled
here by the `Signal` being returned as an emitted event for a later
consumer rather than handed synchronously to the caller. -/
theorem advance_transition_spec (p : Pipeline) (pre : List Container)
    (t : Container) (_hh : p.head = pre ++ [t]) (_ht : p.tail = [t]) :
    (p.head = p.tail →
      p.step.2 = Signal.done none ∧ p.step.1 = p) ∧
    (p.head ≠ p.tail →
      p.step.2 = Signal.next none ∧
      p.step.1.head = p.head.tail ∧
      p.step.1.tail = p.tail ∧
      p.step.1.err = p.err ∧
      p.step.1.containers = p.containers) := by
  constructor
  · intro h
    unfold Pipeline.step
    simp [h]
  · intro h
    unfold Pipeline.step
    simp [h]

/-- Claim C3, witness at the two-step pipeline a;b (head at a non-tail
node): the advance signal fires with a null error and the head moves to
the node of step b. -/
theorem advance_transition_spec_witness :
    pipeAB.step.2 = Signal.next none ∧ pipeAB.step.1.head = [stepB] := by
  have h := (advance_transition_spec pipeAB [stepA] stepB rfl rfl).2 (by decide)
  exact ⟨h.1, h.2.1⟩

/-- Claim C4: classification of a non-detached step after a successful
start.  A runtime error from the wait call is returned verbatim; an
OOM-killed terminal state yields the OOM failure naming the step (never an
exit failure, even though the exit code is non-zero); otherwise a non-zero
exit code yields the exit failure naming the step and the code; otherwise
the step succeeds. -/
theorem wait_classification (eng : Engine) (c : Container) (id : String)
    (hstart : eng.containerStart c = Except.ok id)
    (hdet : c.detached = false) :
    (∀ e, eng.containerWait id = Except.error e →
      (Pipeline.exec eng c).result = some e) ∧
    (∀ st, eng.containerWait id = Except.ok st → st.oomKilled = true →
      (Pipeline.exec eng c).result = some (BuildErr.oomError c.name)) ∧
    (∀ st, eng.containerWait id = Except.ok st → st.oomKilled = false →
      st.exitCode ≠ 0 →
      (Pipeline.exec eng c).result =
        some (BuildErr.exitError c.name st.exitCode)) ∧
    (∀ st, eng.containerWait id = Except.ok st → st.oomKilled = false →
      st.exitCode = 0 → (Pipeline.exec eng c).result = none) ∧
    (∀ st code, eng.containerWait id = Except.ok st → st.oomKilled = true →
      (Pipeline.exec eng c).result ≠ some (BuildErr.exitError c.name code)) := by
  refine ⟨?_, ?_, ?_, ?_, ?_⟩
  · intro e hw
    rw [exec_wait_error eng c id e hstart hdet hw]
  · intro st hw ho
    rw [exec_wait_ok eng c id st hstart hdet hw]
    simp [ho]
  · intro st hw ho hx
    rw [exec_wait_ok eng c id st hstart hdet hw]
    simp [ho, hx]
  · intro st hw ho hx
    rw [exec_wait_ok eng c id st hstart hdet hw]
    simp [ho, hx]
  · intro st code hw ho
    rw [exec_wait_ok eng c id st hstart hdet hw]
    simp [ho]

/-- Claim C4, witness: on concrete engines, an OOM kill (even with exit
code 137) classifies as the OOM failure and not as an exit failure, a
plain exit 1 classifies as the exit failure, exit 0 as success, and a wait
error comes back verbatim. -/
theorem wait_classification_witness :
    (Pipeline.exec engOom stepA).result = some (BuildErr.oomError "a") ∧
    (Pipeline.exec engOom stepA).result ≠ some (BuildErr.exitError "a" 137) ∧
    (Pipeline.exec engAFails stepA).result = some (BuildErr.exitError "a" 1) ∧
    (Pipeline.exec engHappy stepA).result = none ∧
    (Pipeline.exec engWaitErr stepA).result =
      some (BuildErr.engineFailure "wait: connection lost") := by
  refine ⟨?_, ?_, ?_, ?_, ?_⟩
  · exact (wait_classification engOom stepA "id-a" rfl rfl).2.1 _ rfl rfl
  · exact (wait_classification engOom stepA "id-a" rfl rfl).2.2.2.2 _ 137 rfl rfl
  · exact (wait_classification engAFails stepA "id-a" rfl rfl).2.2.1
      ({ exitCode := 1, oomKilled := false } : ContainerState)
      rfl rfl (by decide)
  · exact (wait_classification engHappy stepA "id-a" rfl rfl).2.2.2.1 _ rfl rfl rfl
  · exact (wait_classification engWaitErr stepA "id-a" rfl rfl).1 _ rfl

/-- Claim C5: a detached step whose start succeeds resolves to success
immediately: no wait call ever appears among the runtime calls made, and
the step's outcome is identical under any engine that differs only in the
container's eventual terminal state (so a later failure of the container
cannot change the already-reported success). -/
theorem detached_success_immediate (eng eng2 : Engine) (c : Container)
    (id : String)
    (hdet : c.detached = true)
    (hstart : eng.containerStart c = Except.ok id)
    (hs : eng2.containerStart = eng.containerStart)
    (hl : eng2.containerLogs = eng.containerLogs) :
    (Pipeline.exec eng c).result = none ∧
    (∀ id2, Call.wait id2 ∉ (Pipeline.exec eng c).calls) ∧
    Pipeline.exec eng2 c = Pipeline.exec eng c := by
  have he := exec_detached eng c id hstart hdet
  have he2 := exec_detached eng2 c id (by rw [hs]; exact hstart) hdet
  refine ⟨by rw [he], ?_, ?_⟩
  · intro id2
    rw [he]
    simp
  · rw [he, he2]
    unfold forwardLogs
    rw [hl]

/-- Claim C5, witness: the sidecar step under `engHappy` versus the engine
whose container later exits 9: same reported outcome, success, no wait. -/
theorem detached_success_immediate_witness :
    (Pipeline.exec engHappy sidecar).result = none ∧
    Call.wait "id-svc" ∉ (Pipeline.exec engHappy sidecar).calls ∧
    Pipeline.exec engWaitAlt sidecar = Pipeline.exec engHappy sidecar := by
  have h := detached_success_immediate engHappy engWaitAlt sidecar "id-svc"
    rfl rfl rfl rfl
  exact ⟨h.1, h.2.1 "id-svc", h.2.2⟩

/-- Claim C6: a failed start is returned as the step's result with nothing
recorded and no log forwarding launched; a successful start always records
its identifier; driving the whole chain from the first node leaves in the
started-container list exactly the identifiers of the successful start
calls, in order, and teardown passes exactly that list to removal. -/
theorem containers_exactly_started (eng : Engine) (p : Pipeline)
    (pre : List Container) (t : Container) (fuel : Nat)
    (hh : p.head = pre ++ [t]) (ht : p.tail = [t])
    (hc : p.containers = []) (hf : pre.length < fuel) :
    (∀ c e, eng.containerStart c = Except.error e →
      Pipeline.exec eng c =
        { result := some e, started := none, logs := []
          calls := [Call.start c] }) ∧
    (∀ c id, eng.containerStart c = Except.ok id →
      (Pipeline.exec eng c).started = some id) ∧
    (runAll eng fuel p).containers = startedIds eng (pre ++ [t]) ∧
    (Pipeline.Teardown eng (runAll eng fuel p)).removeCalls.map Prod.fst =
      (runAll eng fuel p).containers := by
  refine ⟨fun c e he => exec_start_error eng c e he, ?_, ?_, ?_⟩
  · intro c id hi
    rw [exec_started, hi]
    rfl
  · rw [runAll_containers eng pre t p fuel hh ht hf, hc]
    simp
  · exact teardownRemovals_fst eng (runAll eng fuel p).containers

/-- Claim C6, witness: driving a;b on `engHappy` records ids id-a then
id-b, and teardown removes exactly those. -/
theorem containers_exactly_started_witness :
    (runAll engHappy 2 pipeAB).containers = ["id-a", "id-b"] ∧
    (Pipeline.Teardown engHappy (runAll engHappy 2 pipeAB)).removeCalls.map
        Prod.fst = ["id-a", "id-b"] := by
  have h := containers_exactly_started engHappy pipeAB [stepA] stepB 2
    rfl rfl rfl (by decide)
  constructor
  · rw [h.2.2.1]
    decide
  · rw [h.2.2.2, h.2.2.1]
    decide

/-- Claim C7: teardown calls remove on every recorded container identifier
— whatever the individual removal results are, since the engine here is
arbitrary and removal errors are discarded — then closes the advance and
terminal channels, while the output channel is deliberately never
closed. -/
theorem teardown_best_effort (eng : Engine) (p : Pipeline) :
    (Pipeline.Teardown eng p).removeCalls.map Prod.fst = p.containers ∧
    (Pipeline.Teardown eng p).nextClosed = true ∧
    (Pipeline.Teardown eng p).doneClosed = true ∧
    (Pipeline.Teardown eng p).pipeClosed = false :=
  ⟨teardownRemovals_fst eng p.containers, rfl, rfl, rfl⟩

/-- Claim C8: a failure to open the log stream is silently swallowed: no
records are emitted, and the step's result is the same under any engine
that differs only in the log stream (so no error is surfaced and the
result is unaffected); a stream that closes immediately likewise yields
zero records, and such a step whose container exits cleanly is still
reported successful. -/
theorem logsOpen_failure_swallowed (eng eng2 : Engine) (c : Container)
    (id : String) (e : BuildErr)
    (hstart : eng.containerStart c = Except.ok id)
    (hs : eng2.containerStart = eng.containerStart)
    (hw : eng2.containerWait = eng.containerWait) :
    (eng.containerLogs id = Except.error e → (Pipeline.exec eng c).logs = []) ∧
    (eng.containerLogs id = Except.ok [] → (Pipeline.exec eng c).logs = []) ∧
    (Pipeline.exec eng2 c).result = (Pipeline.exec eng c).result ∧
    (c.detached = false → eng.containerWait id = Except.ok okState →
      (Pipeline.exec eng c).result = none) := by
  have hstart2 : eng2.containerStart c = Except.ok id := by rw [hs]; exact hstart
  refine ⟨?_, ?_, ?_, ?_⟩
  · intro h
    rw [exec_logs_eq eng c id hstart]
    unfold forwardLogs
    rw [h]
  · intro h
    rw [exec_logs_eq eng c id hstart]
    unfold forwardLogs
    rw [h]
    rfl
  · cases hd : c.detached with
    | true =>
      rw [exec_detached eng c id hstart hd, exec_detached eng2 c id hstart2 hd]
    | false =>
      cases hwc : eng.containerWait id with
      | error we =>
        rw [exec_wait_error eng c id we hstart hd hwc,
          exec_wait_error eng2 c id we hstart2 hd (by rw [hw]; exact hwc)]
      | ok st =>
        rw [exec_wait_ok eng c id st hstart hd hwc,
          exec_wait_ok eng2 c id st hstart2 hd (by rw [hw]; exact hwc)]
  · intro hd hwc
    rw [exec_wait_ok eng c id okState hstart hd hwc]
    simp [okState]

/-- Claim C8, witness: step a under the engine whose log stream fails to
open emits zero records and still succeeds, with the same result as under
the engine whose stream merely closes immediately. -/
theorem logsOpen_failure_swallowed_witness :
    (Pipeline.exec engLogsFail stepA).logs = [] ∧
    (Pipeline.exec engLogsEmpty stepA).result =
      (Pipeline.exec engLogsFail stepA).result ∧
    (Pipeline.exec engLogsFail stepA).result = none := by
  have h := logsOpen_failure_swallowed engLogsFail engLogsEmpty stepA "id-a"
    (BuildErr.engineFailure "logs: no stream") rfl rfl rfl
  exact ⟨h.1 rfl, h.2.2.1, h.2.2.2 rfl rfl⟩

/-- Claim C9: `Stop` delivers the `ErrTerm` termination sentinel on the
terminal signal for every pipeline state, and does nothing else: the
pipeline state — head, tail, stored error, recorded containers — is
untouched, and no runtime call (in particular no container stop or
removal) is made.  The delivery happens in a fresh goroutine in the Go
code, modelled here by the `Signal` being returned as an emitted event. -/
theorem stop_term_sentinel (p : Pipeline) :
    (Pipeline.Stop p).2.1 = Signal.done (some BuildErr.errTerm) ∧
    (Pipeline.Stop p).1 = p ∧
    (Pipeline.Stop p).2.2 = ([] : List Call) :=
  ⟨rfl, rfl, rfl⟩

/-- Claim C10: the stored pipeline error is sticky against success but not
against later failures: a step resolving successfully leaves the earlier
stored failure in place (Err still returns it), while a later failing step
overwrites it (Err returns the later failure). -/
theorem err_sticky_against_success_only (eng : Engine) (p : Pipeline)
    (e1 : BuildErr) (hprev : p.err = some e1) :
    ((Pipeline.exec eng (Pipeline.Head p)).result = none →
      Pipeline.Err (Pipeline.Exec eng p).1 = some e1) ∧
    (∀ e2, (Pipeline.exec eng (Pipeline.Head p)).result = some e2 →
      Pipeline.Err (Pipeline.Exec eng p).1 = some e2) := by
  by_cases h : p.head = p.tail
  · rw [Exec_at_tail eng p h]
    constructor
    · intro hs
      simp [Pipeline.Err, hs, hprev]
    · intro e2 hf
      simp [Pipeline.Err, hf]
  · rw [Exec_not_tail eng p h]
    constructor
    · intro hs
      simp [Pipeline.Err, hs, hprev]
    · intro e2 hf
      simp [Pipeline.Err, hf]

/-- Claim C10, witness: with the failure of step z already stored, a
successful run of step a leaves Err at z's failure, while a failing run of
step a (exit 1) overwrites it. -/
theorem err_sticky_against_success_only_witness :
    Pipeline.Err (Pipeline.Exec engHappy pipeABErr).1 =
      some (BuildErr.exitError "z" 2) ∧
    Pipeline.Err (Pipeline.Exec engAFails pipeABErr).1 =
      some (BuildErr.exitError "a" 1) := by
  constructor
  · exact (err_sticky_against_success_only engHappy pipeABErr
      (BuildErr.exitError "z" 2) rfl).1 (by decide)
  · exact (err_sticky_against_success_only engAFails pipeABErr
      (BuildErr.exitError "z" 2) rfl).2 (BuildErr.exitError "a" 1) (by decide)

end Build
